import Mathlib

/-!
A verification model of `main.py` from the `d825_unpack` repository.

The script recovers two payloads from a firmware image: an LZMA stream whose
start offset is only approximately known (`Firmware.extract_lzma_section`),
and a SquashFS container at a fixed offset (`Firmware.extract_squashfs_section`),
whose entries it then materializes onto disk
(`Firmware.extract_squashfs_contents` and `Firmware._handle_symlink`),
orchestrated by `Firmware.extract_firmware`.

Modelling conventions:
* Bytes are `Nat`; byte buffers are `List Nat`.
* The external LZMA decoder (`lzma.LZMADecompressor(...).decompress`) is an
  abstract parameter `D : List Nat → Option (List Nat)`; `none` models a
  decompression error being raised, `some d` models success with output `d`.
  The dictionary size is baked into `D` by the caller and appears separately
  only because the source logs it.
* The host filesystem is an association list from resolved absolute paths
  (component lists, rooted at the process working directory) to nodes.
  Each primitive returns the updated filesystem paired with a `Bool` that is
  `true` on success and `false` when the corresponding Python call raises.
  Host behaviour that the script does not exercise (opening a path whose
  final component is a symlink) is not modelled; writing to the pre-created
  output directory in the orchestrator is modelled as always succeeding,
  matching how the spec treats that I/O as out-of-scope boilerplate.
* Logging output is modelled (as a `List String`) only where a claim is
  about it, namely in `extract_lzma_section`.
-/

/-! ## Paths

`extract_squashfs_contents` computes `str(item.path).lstrip("/")` and joins it
onto the extraction directory with the pathlib join operator. Pathlib splits on `/`
and drops empty and `"."` components, keeping `".."` literally; the operating
system then resolves `".."` components against the directory tree when the
path is used. -/

/-- Python lstrip: drop every leading slash character, as in the source line `str(item.path).lstrip("/")`. -/
def lstripSlash (s : String) : String :=
  String.mk (s.data.dropWhile (fun c => c == '/'))

/-- Split a character list into the groups between `/` characters. -/
def splitOnSlash : List Char → List (List Char)
  | [] => [[]]
  | c :: rest =>
    if c == '/' then [] :: splitOnSlash rest
    else
      match splitOnSlash rest with
      | [] => [[c]]
      | g :: gs => (c :: g) :: gs

/-- The component list `pathlib` derives from `str(item.path).lstrip("/")`:
split on `/`, drop empty and `"."` components, keep `".."`. -/
def pySplitPath (s : String) : List String :=
  ((splitOnSlash (lstripSlash s).data).map (fun l => String.mk l)).filter
    (fun c => !(c == "") && !(c == "."))

/-- Resolve `".."` components the way the operating system does when a path
is actually used: a `".."` pops the last resolved component (the working
directory, component list `[]`, is treated as the resolution root). `"."`
components never reach this function: `pySplitPath` already drops them. -/
def resolveComps (acc : List String) : List String → List String
  | [] => acc
  | c :: rest =>
    if c == ".." then resolveComps acc.dropLast rest
    else resolveComps (acc ++ [c]) rest

/-- The target root of materialization: `self.output_dir / "squashfs_contents"`
relative to the working directory. -/
def extractDir : List String := ["extracted_firmware", "squashfs_contents"]

/-- Whether a resolved path lies inside the target root directory. -/
def isUnderRoot (p : List String) : Bool :=
  p.take extractDir.length == extractDir

/-! ## Filesystem state -/

/-- An on-disk node: directory, regular file with content, or symbolic link
with its literal target string. -/
inductive Node where
  | dir : Node
  | file : List Nat → Node
  | link : String → Node
deriving DecidableEq

/-- The filesystem: resolved absolute paths mapped to nodes. The working
directory root `[]` is implicitly always a directory. -/
abbrev FS := List (List String × Node)

/-- Look up the node stored at a path. -/
def FS.find : FS → List String → Option Node
  | [], _ => none
  | (q, n) :: rest, p => if q = p then some n else FS.find rest p

/-- Remove every binding of a path. -/
def FS.erase (fs : FS) (p : List String) : FS :=
  fs.filter (fun e => !(decide (e.1 = p)))

/-- Store a node at a path, replacing any previous binding. -/
def FS.insert (fs : FS) (p : List String) (n : Node) : FS :=
  (p, n) :: FS.erase fs p

/-- Whether a directory is present at a resolved path (the root `[]` always
is). -/
def isDirB (fs : FS) (p : List String) : Bool :=
  p.isEmpty || decide (FS.find fs p = some Node.dir)

/-- Python Path.exists for a resolved non-root path: some node is
present there. -/
def existsB (fs : FS) (p : List String) : Bool :=
  !p.isEmpty && (FS.find fs p).isSome

/-- One `mkdir` call with `exist_ok=True` at an already-resolved path:
succeeds if the path is the root or holds a directory, raises if a
non-directory node occupies it, creates the directory otherwise. -/
def mkdirOne (fs : FS) (rp : List String) : FS × Bool :=
  if rp.isEmpty then (fs, true)
  else
    match FS.find fs rp with
    | some Node.dir => (fs, true)
    | some _ => (fs, false)
    | none => (FS.insert fs rp Node.dir, true)

/-- Create a list of paths in order, stopping at the first failure. Every
path is resolved against the tree before creation. -/
def mkdirList (fs : FS) : List (List String) → FS × Bool
  | [] => (fs, true)
  | q :: rest =>
    let r := mkdirOne fs (resolveComps [] q)
    if r.2 then mkdirList r.1 rest else (r.1, false)

/-- Python `path.mkdir(parents=True, exist_ok=True)`: create every prefix of
the (possibly `".."`-containing) path from shortest to longest. -/
def mkdirParents (fs : FS) (q : List String) : FS × Bool :=
  mkdirList fs q.inits

/-- Python `path.mkdir(exist_ok=True)` without `parents`: the parent must
already be a directory. Used only on dot-free paths. -/
def mkdirSingle (fs : FS) (p : List String) : FS × Bool :=
  if isDirB fs p.dropLast then mkdirOne fs p else (fs, false)

/-- Whether a Python open for writing succeeds at an unresolved target path:
the resolved parent is a directory and the resolved path itself is not. -/
def openWriteOkB (fs : FS) (target : List String) : Bool :=
  isDirB fs (resolveComps [] target.dropLast) &&
    !(isDirB fs (resolveComps [] target))

/-! ## Image entries and the materializer -/

/-- One chunk from `item.iter_bytes()`: either bytes, or a decode error
raised lazily by the codec while streaming the content of the file. -/
inductive Block where
  | ok : List Nat → Block
  | err : Block
deriving DecidableEq

/-- The kind of an entry, as exposed through `item.is_dir` / `item.is_file` /
`item.is_symlink`. The `readlink()` of a symlink may itself raise, modelled by
`symlink none`. Anything that is none of the three is `other` (device node,
FIFO, socket). -/
inductive EntryKind where
  | dir : EntryKind
  | file : List Block → EntryKind
  | symlink : Option String → EntryKind
  | other : EntryKind
deriving DecidableEq

/-- One node yielded by iterating the SquashFS image. -/
structure ImageEntry where
  path : String
  kind : EntryKind
deriving DecidableEq

/-- Stream blocks into an open file: the written content is the
concatenation of chunks before the first decode error; the `Bool` is `false`
when a chunk raised. -/
def writeBlocks : List Block → List Nat × Bool
  | [] => ([], true)
  | Block.ok b :: rest =>
    let r := writeBlocks rest
    (b ++ r.1, r.2)
  | Block.err :: _ => ([], false)

/-- The bytes of a string, for the symlink fallback file content. -/
def strBytes (s : String) : List Nat := s.data.map Char.toNat

/-- Lines 93-96: `open(target_path, "wb")` then write each block. The file
is created (truncated) by `open`, so a decode error mid-stream leaves a
partial file behind and re-raises. -/
def processFile (fs : FS) (target : List String) (blocks : List Block) :
    FS × Bool :=
  if openWriteOkB fs target then
    let w := writeBlocks blocks
    (FS.insert fs (resolveComps [] target) (Node.file w.1), w.2)
  else (fs, false)

/-- Lines 115-119, the inner `try` of `_handle_symlink`:
`target_path.symlink_to(link_target)` succeeds when the host supports
symlinks, nothing occupies the resolved path and its parent exists; on any
failure the fallback writes a plain file containing
`f"Symlink to: {link_target}"`. The returned `Bool` is `true` when an
exception escapes this inner block (the fallback write itself raised). -/
def symlinkAttempt (symlinkOk : Bool) (fs : FS) (target : List String)
    (t : String) : FS × Bool :=
  let rt := resolveComps [] target
  if symlinkOk && !(existsB fs rt) &&
      isDirB fs (resolveComps [] target.dropLast) then
    (FS.insert fs rt (Node.link t), false)
  else
    if openWriteOkB fs target then
      (FS.insert fs rt (Node.file (strBytes ("Symlink to: " ++ t))), false)
    else (fs, true)

/-- Lines 110-119, the body of the outer `try` of `_handle_symlink`:
`item.readlink()` (which may raise, modelled by `lt = none`), then
`if target_path.exists(): target_path.unlink()` (`unlink` raises on a
directory), then the symlink attempt. The `Bool` is `true` when an
exception escapes to the outer handler. -/
def handle_symlink_body (symlinkOk : Bool) (fs : FS) (target : List String)
    (lt : Option String) : FS × Bool :=
  match lt with
  | none => (fs, true)
  | some t =>
    let rt := resolveComps [] target
    if existsB fs rt then
      if isDirB fs rt then (fs, true)
      else symlinkAttempt symlinkOk (FS.erase fs rt) target t
    else symlinkAttempt symlinkOk fs target t

/-- The function Firmware._handle_symlink (lines 108-121): the outer `except` catches
everything the body raises and only logs it, so the caller always continues
with the filesystem as the body left it. -/
def handle_symlink (symlinkOk : Bool) (fs : FS) (target : List String)
    (lt : Option String) : FS :=
  (handle_symlink_body symlinkOk fs target lt).1

/-- Lines 86-98, one iteration of the extraction loop:
`relative_path = str(item.path).lstrip("/")`,
`target_path = extract_dir / relative_path`,
`target_path.parent.mkdir(parents=True, exist_ok=True)`, then dispatch on
the entry kind. The `Bool` is `false` when the iteration raises (which the
surrounding `try` of `extract_squashfs_contents` turns into aborting the
whole loop). -/
def processEntry (symlinkOk : Bool) (fs : FS) (e : ImageEntry) : FS × Bool :=
  let target := extractDir ++ pySplitPath e.path
  let m := mkdirParents fs target.dropLast
  if m.2 then
    match e.kind with
    | EntryKind.dir => (m.1, true)
    | EntryKind.other => (m.1, true)
    | EntryKind.file blocks => processFile m.1 target blocks
    | EntryKind.symlink lt => (handle_symlink symlinkOk m.1 target lt, true)
  else (m.1, false)

/-- The `for item in image:` loop: process entries in order; the first
iteration that raises aborts the loop (the exception lands in the single
`except` wrapping the whole of `extract_squashfs_contents`). -/
def materializeLoop (symlinkOk : Bool) (fs : FS) :
    List ImageEntry → FS × Bool
  | [] => (fs, true)
  | e :: rest =>
    let r := processEntry symlinkOk fs e
    if r.2 then materializeLoop symlinkOk r.1 rest else (r.1, false)

/-- The function Firmware.extract_squashfs_contents (lines 72-105):
`extract_dir.mkdir(exist_ok=True)`, `SquashFsImage.from_file` (`openOk`
models whether the container parses), then the entry loop; any exception is
caught by the single outer `except` and the function returns `False`,
otherwise `True`. -/
def extract_squashfs_contents (symlinkOk openOk : Bool)
    (entries : List ImageEntry) (fs : FS) : FS × Bool :=
  let m := mkdirSingle fs extractDir
  if m.2 then
    if openOk then materializeLoop symlinkOk m.1 entries
    else (m.1, false)
  else (m.1, false)

/-! ## LZMA section search -/

/-- Python `data[i:]` slicing, including the wrap-around meaning of a
negative start index: the start is clamped to `max(len(data) + i, 0)`. -/
def pySliceFrom (data : List Nat) (i : Int) : List Nat :=
  if 0 ≤ i then data.drop i.toNat
  else data.drop ((data.length : Int) + i).toNat

/-- Line 50: the candidate offsets, in source order. -/
def lzmaCandidates (offset : Int) : List Int :=
  [offset, offset - 1, offset + 1, offset - 13, offset + 13]

/-- Lines 50-62: try each candidate offset in order. A decompression error
(`D _ = none`) is swallowed and the next candidate tried; empty output fails
the `if decompressed_data:` truthiness test and also falls through to the
next candidate; the first non-empty result is returned. Log lines accumulate
alongside. -/
def tryCands (D : List Nat → Option (List Nat)) (data : List Nat)
    (logs : List String) : List Int → Option (List Nat) × List String
  | [] =>
    (none, logs ++ ["[!] Could not find valid LZMA data around specified offset"])
  | t :: rest =>
    let logs1 := logs ++ ["[*] Trying offset: " ++ toString t]
    match D (pySliceFrom data t) with
    | some d =>
      if d.isEmpty then tryCands D data logs1 rest
      else
        (some d,
          logs1 ++ ["[+] Successfully decompressed: " ++ toString d.length ++
            " bytes at offset " ++ toString t])
    | none => tryCands D data logs1 rest

/-- The function Firmware.extract_lzma_section (lines 46-65). `dictSize` and
`uncompressedSize` appear only in the opening log line; decompression with
the given dictionary size is the abstract `D`. Returns the result and the
log. -/
def extract_lzma_section (D : List Nat → Option (List Nat)) (data : List Nat)
    (offset : Int) (dictSize uncompressedSize : Nat) :
    Option (List Nat) × List String :=
  tryCands D data
    ["[*] Attempting to extract LZMA section: Offset: " ++ toString offset ++
      ", Dictionary size: " ++ toString dictSize ++
      ", Expected uncompressed size: " ++ toString uncompressedSize]
    (lzmaCandidates offset)

/-- Modelled from the wording of the spec (§4.1), for comparison with
`extract_lzma_section`: the decompression result of the first candidate
offset that decodes without error and yields at least one byte. -/
def locateFirst (D : List Nat → Option (List Nat)) (data : List Nat) :
    List Int → Option (List Nat)
  | [] => none
  | t :: rest =>
    match D (pySliceFrom data t) with
    | some d => if d.isEmpty then locateFirst D data rest else some d
    | none => locateFirst D data rest

/-! ## SquashFS section slice and the orchestrator -/

/-- The function Firmware.extract_squashfs_section (lines 67-70):
`firmware_data[offset:offset + size]`. -/
def extract_squashfs_section (data : List Nat) (offset size : Nat) :
    List Nat :=
  (data.take (offset + size)).drop offset

/-- Lines 134-149: save the LZMA result (if any) to
`extracted_firmware/extracted_lzma.bin` and the sliced SquashFS bytes to
`extracted_firmware/filesystem.squashfs`. These writes target the output
directory created in `Firmware.__init__` and are modelled as succeeding. -/
def saveSections (D : List Nat → Option (List Nat)) (data : List Nat)
    (fs : FS) : FS :=
  let fs1 :=
    match (extract_lzma_section D data 10264 8388608 8861280).1 with
    | some d =>
      FS.insert fs ["extracted_firmware", "extracted_lzma.bin"] (Node.file d)
    | none => fs
  FS.insert fs1 ["extracted_firmware", "filesystem.squashfs"]
    (Node.file (extract_squashfs_section data 2751522 5159718))

/-- The function Firmware.extract_firmware (lines 123-153). `readResult` is the outcome
of reading the input file (`none` models the `open`/`read` raising, returning
`False`); on success the LZMA search runs (failure only logged), the
SquashFS slice is saved, `extract_squashfs_contents` runs (its Boolean
outcome is discarded), and the function returns `True`. -/
def extract_firmware (readResult : Option (List Nat))
    (D : List Nat → Option (List Nat)) (symlinkOk openOk : Bool)
    (entries : List ImageEntry) (fs : FS) : FS × Bool :=
  match readResult with
  | none => (fs, false)
  | some data =>
    ((extract_squashfs_contents symlinkOk openOk entries
        (saveSections D data fs)).1, true)

/-! ## Concrete instances used by witnesses and counterexamples -/

/-- The filesystem state after `Firmware.__init__` has created the output
directory. -/
def fw0 : FS := [(["extracted_firmware"], Node.dir)]

/-- A concrete decoder: decodes the whole buffer `[5, 6]` to `[1]` and its
one-byte suffix `[6]` to `[2]`, so both offset 0 and offset 1 are valid. -/
def D0 : List Nat → Option (List Nat) := fun l =>
  if l = [5, 6] then some [1] else if l = [6] then some [2] else none

/-- A tree in which the symlink target path is already occupied by a file. -/
def fsw : FS :=
  [(["extracted_firmware"], Node.dir),
   (["extracted_firmware", "squashfs_contents"], Node.dir),
   (["extracted_firmware", "squashfs_contents", "l"], Node.file [1])]

/-- The target path of the symlink entry materialized into `fsw`. -/
def tgw : List String := ["extracted_firmware", "squashfs_contents", "l"]

/-- A tree in which the symlink target path is occupied by a directory. -/
def fsd : FS :=
  [(["extracted_firmware"], Node.dir),
   (["extracted_firmware", "squashfs_contents"], Node.dir),
   (["extracted_firmware", "squashfs_contents", "d"], Node.dir)]

/-! ## Helper lemmas -/

theorem FS.find_insert_self (fs : FS) (p : List String) (n : Node) :
    FS.find (FS.insert fs p n) p = some n := by
  simp [FS.insert, FS.find]

theorem FS.find_erase_self (fs : FS) (p : List String) :
    FS.find (FS.erase fs p) p = none := by
  induction fs with
  | nil => rfl
  | cons e rest ih =>
    rcases e with ⟨q, n⟩
    by_cases h : q = p
    · simpa [FS.erase, List.filter_cons, h] using ih
    · simpa [FS.erase, List.filter_cons, h, FS.find] using ih

theorem FS.erase_erase_self (fs : FS) (p : List String) :
    FS.erase (FS.erase fs p) p = FS.erase fs p := by
  simp [FS.erase, List.filter_filter]

theorem FS.insert_erase_self (fs : FS) (p : List String) (n : Node) :
    FS.insert (FS.erase fs p) p n = FS.insert fs p n := by
  simp [FS.insert, FS.erase_erase_self]

theorem FS.erase_of_find_none (fs : FS) (p : List String)
    (h : FS.find fs p = none) : FS.erase fs p = fs := by
  induction fs with
  | nil => rfl
  | cons e rest ih =>
    rcases e with ⟨q, n⟩
    simp only [FS.find] at h
    by_cases hq : q = p
    · rw [if_pos hq] at h
      exact absurd h (by simp)
    · rw [if_neg hq] at h
      have hb : (!decide ((q, n).1 = p)) = true := by simp [hq]
      simp only [FS.erase, List.filter_cons, hb, if_true]
      have h2 := ih h
      simp only [FS.erase] at h2
      rw [h2]

theorem existsB_erase_self (fs : FS) (p : List String) :
    existsB (FS.erase fs p) p = false := by
  simp [existsB, FS.find_erase_self]

theorem tryCands_fst_eq_locateFirst (D : List Nat → Option (List Nat))
    (data : List Nat) (cands : List Int) (logs : List String) :
    (tryCands D data logs cands).1 = locateFirst D data cands := by
  induction cands generalizing logs with
  | nil => rfl
  | cons t rest ih =>
    simp only [tryCands, locateFirst]
    cases h : D (pySliceFrom data t) with
    | none => simpa [h] using ih _
    | some d =>
      by_cases hd : d.isEmpty
      · simp [h, hd, ih]
      · simp [h, hd]

theorem locateFirst_none (D : List Nat → Option (List Nat)) (data : List Nat)
    (cands : List Int)
    (h : ∀ t ∈ cands, D (pySliceFrom data t) = none ∨
      D (pySliceFrom data t) = some []) :
    locateFirst D data cands = none := by
  induction cands with
  | nil => rfl
  | cons t rest ih =>
    have hrest : locateFirst D data rest = none :=
      ih (fun x hx => h x (by simp [hx]))
    rcases h t (by simp) with h1 | h1 <;> simp [locateFirst, h1, hrest]

theorem processFile_find_ok (fs : FS) (target : List String) (bs : List Nat)
    (h : (processFile fs target [Block.ok bs]).2 = true) :
    FS.find (processFile fs target [Block.ok bs]).1 (resolveComps [] target) =
      some (Node.file bs) := by
  unfold processFile at h ⊢
  by_cases hw : openWriteOkB fs target
  · simp only [hw, if_true, writeBlocks] at h ⊢
    simpa using FS.find_insert_self fs (resolveComps [] target) (Node.file bs)
  · simp [hw] at h

/-! ## Claims -/

/-- Claim C1, counterexample: the claim says a failure on one entry leaves
all other entries materialized. With two file entries where the first raises
a decode error mid-stream, the second entry is never written and the run
reports failure: the single `try` around the whole loop aborts the
traversal. -/
theorem claim_C1_counterexample :
    (let r := extract_squashfs_contents true true
        [⟨"a", EntryKind.file [Block.err]⟩, ⟨"b", EntryKind.file [Block.ok [1]]⟩] fw0;
      FS.find r.1 ["extracted_firmware", "squashfs_contents", "b"] = none
      ∧ r.2 = false) := by
  decide

/-- Claim C1, amended: a failure while processing entry k is caught at the
traversal level — the materializer returns the failure outcome instead of
throwing, and the entries before k are fully materialized — but the
traversal aborts: the entries after k are not processed and the filesystem
is left exactly as the failing entry left it. -/
theorem claim_C1_theorem (symlinkOk : Bool) (fs : FS) (pre : List ImageEntry)
    (e : ImageEntry) (post : List ImageEntry)
    (h1 : (materializeLoop symlinkOk fs pre).2 = true)
    (h2 : (processEntry symlinkOk (materializeLoop symlinkOk fs pre).1 e).2 = false) :
    materializeLoop symlinkOk fs (pre ++ e :: post) =
      ((processEntry symlinkOk (materializeLoop symlinkOk fs pre).1 e).1, false) := by
  induction pre generalizing fs with
  | nil =>
    simp only [materializeLoop, List.nil_append] at h2 ⊢
    simp [h2]
  | cons a pre ih =>
    simp only [materializeLoop, List.cons_append] at h1 h2 ⊢
    cases hok : (processEntry symlinkOk fs a).2 with
    | false =>
      rw [hok] at h1
      simp at h1
    | true =>
      simp only [hok, if_true] at h1 h2 ⊢
      exact ih _ h1 h2

/-- Claim C1, witness: a concrete three-entry run in which the middle entry
fails; the prefix is processed, the failure is reported as `false`, the
suffix is dropped. -/
theorem claim_C1_witness :
    (let pre : List ImageEntry := [⟨"x", EntryKind.file [Block.ok [7]]⟩];
     let e : ImageEntry := ⟨"y", EntryKind.file [Block.err]⟩;
     let post : List ImageEntry := [⟨"z", EntryKind.file [Block.ok [9]]⟩];
     (materializeLoop true fw0 pre).2 = true
     ∧ (processEntry true (materializeLoop true fw0 pre).1 e).2 = false
     ∧ materializeLoop true fw0 (pre ++ e :: post) =
        ((processEntry true (materializeLoop true fw0 pre).1 e).1, false)) :=
  ⟨by decide, by decide,
    claim_C1_theorem true fw0 [⟨"x", EntryKind.file [Block.ok [7]]⟩]
      ⟨"y", EntryKind.file [Block.err]⟩ [⟨"z", EntryKind.file [Block.ok [9]]⟩]
      (by decide) (by decide)⟩

/-- Claim C2, counterexample: the claim says an entry whose path contains a
parent-directory segment is reported, skipped, and never written outside the
target root. Materializing the single entry `../../etc/passwd` writes its
content to `etc/passwd` two levels above the target root (and even reports
success): no sanitization of `".."` segments exists in the code. -/
theorem claim_C2_counterexample :
    (let r := extract_squashfs_contents true true
        [⟨"../../etc/passwd", EntryKind.file [Block.ok [42]]⟩] fw0;
      FS.find r.1 ["etc", "passwd"] = some (Node.file [42])
      ∧ isUnderRoot ["etc", "passwd"] = false
      ∧ r.2 = true) := by
  decide

/-- Claim C2, amended: only leading slashes are stripped from entry paths;
parent-directory segments are neither rejected nor skipped. A file entry
that processes successfully is written at the `".."`-resolved location of
the target root joined with its path components — a location that can lie
outside the target root. -/
theorem claim_C2_theorem (symlinkOk : Bool) (fs : FS) (p : String) (bs : List Nat)
    (h : (processEntry symlinkOk fs ⟨p, EntryKind.file [Block.ok bs]⟩).2 = true) :
    FS.find (processEntry symlinkOk fs ⟨p, EntryKind.file [Block.ok bs]⟩).1
      (resolveComps [] (extractDir ++ pySplitPath p)) = some (Node.file bs) := by
  unfold processEntry at h ⊢
  by_cases hm : (mkdirParents fs (extractDir ++ pySplitPath p).dropLast).2
  · simp only [hm, if_true] at h ⊢
    exact processFile_find_ok _ _ _ h
  · simp [hm] at h

/-- Claim C2, witness: the escaping entry `../../etc/passwd` processes
successfully and its bytes land at the resolved (outside-the-root)
location. -/
theorem claim_C2_witness :
    (processEntry true [] ⟨"../../etc/passwd", EntryKind.file [Block.ok [42]]⟩).2 = true
    ∧ FS.find (processEntry true [] ⟨"../../etc/passwd", EntryKind.file [Block.ok [42]]⟩).1
        (resolveComps [] (extractDir ++ pySplitPath "../../etc/passwd")) =
        some (Node.file [42]) :=
  ⟨by decide, claim_C2_theorem true [] "../../etc/passwd" [42] (by decide)⟩

/-- Claim C3: the LZMA locator result equals the first candidate offset —
taken in the order nominal, nominal − 1, nominal + 1, nominal − 13,
nominal + 13 — whose decode succeeds with at least one byte of output
(errors and empty output reject the candidate and the search continues); in
particular, when the nominal offset itself decodes to non-empty output, that
result is returned regardless of later candidates. -/
theorem claim_C3_theorem (D : List Nat → Option (List Nat)) (data : List Nat)
    (offset : Int) (dictSize uncompressedSize : Nat) :
    (extract_lzma_section D data offset dictSize uncompressedSize).1 =
      locateFirst D data (lzmaCandidates offset)
    ∧ ∀ d0, D (pySliceFrom data offset) = some d0 → d0 ≠ [] →
        (extract_lzma_section D data offset dictSize uncompressedSize).1 = some d0 := by
  have h1 : (extract_lzma_section D data offset dictSize uncompressedSize).1 =
      locateFirst D data (lzmaCandidates offset) :=
    tryCands_fst_eq_locateFirst D data (lzmaCandidates offset) _
  refine ⟨h1, fun d0 hD hne => ?_⟩
  have hd : d0.isEmpty = false := by
    cases d0 with
    | nil => exact absurd rfl hne
    | cons x xs => rfl
  rw [h1]
  simp [lzmaCandidates, locateFirst, hD, hd]

/-- Claim C3, witness: a buffer valid at both the nominal offset and the
nominal offset plus one; the nominal-offset result is the one returned. -/
theorem claim_C3_witness :
    D0 (pySliceFrom [5, 6] 0) = some [1]
    ∧ D0 (pySliceFrom [5, 6] 1) = some [2]
    ∧ ([1] : List Nat) ≠ []
    ∧ (extract_lzma_section D0 [5, 6] 0 0 0).1 = some [1] :=
  ⟨by decide, by decide, by decide,
    (claim_C3_theorem D0 [5, 6] 0 0 0).2 [1] (by decide) (by decide)⟩

/-- Claim C4: `extract_squashfs_section data offset size` is byte-equal to
the slice of `data` from `offset` of length `size`, and when
`offset + size` exceeds the buffer length it degrades to the shorter
available slice from `offset` to the end instead of failing. -/
theorem claim_C4_theorem (data : List Nat) (offset size : Nat) :
    extract_squashfs_section data offset size = (data.drop offset).take size
    ∧ (data.length < offset + size →
        extract_squashfs_section data offset size = data.drop offset) := by
  constructor
  · unfold extract_squashfs_section
    rw [List.drop_take]
    congr 1
    omega
  · intro h
    unfold extract_squashfs_section
    rw [List.take_of_length_le (by omega)]

/-- Claim C4, witness: a three-byte buffer sliced past its end yields the
tail from the offset. -/
theorem claim_C4_witness :
    (([0, 1, 2] : List Nat).length < 2 + 5)
    ∧ extract_squashfs_section [0, 1, 2] 2 5 = ([0, 1, 2] : List Nat).drop 2 :=
  ⟨by decide, (claim_C4_theorem [0, 1, 2] 2 5).2 (by decide)⟩

/-- Claim C5, counterexample: the claim says an explicit directory entry
with no descendant entries ends up as a directory on disk. Materializing the
single directory entry `/a` succeeds but creates no node at the normalized
path of the entry: only the parent chain of each entry is ever created. -/
theorem claim_C5_counterexample :
    (let r := extract_squashfs_contents true true [⟨"/a", EntryKind.dir⟩] fw0;
      r.2 = true
      ∧ FS.find r.1 ["extracted_firmware", "squashfs_contents", "a"] = none) := by
  decide

/-- Claim C5, amended: processing a directory entry performs exactly the
ancestor-creation step for the parent of its target path (creating ancestor
directories on demand, with no parent-before-child iteration assumption) and
nothing else — the node of the directory entry itself is not created, so a
childless directory entry is materialized only if some other entry has it as
an ancestor. -/
theorem claim_C5_theorem (symlinkOk : Bool) (fs : FS) (p : String) :
    processEntry symlinkOk fs ⟨p, EntryKind.dir⟩ =
      mkdirParents fs (extractDir ++ pySplitPath p).dropLast := by
  unfold processEntry
  rcases hm : mkdirParents fs (extractDir ++ pySplitPath p).dropLast with ⟨fs1, ok⟩
  cases ok <;> simp [hm]

/-- Claim C6: when every one of the five candidate offsets either raises a
decompression error or produces empty output, the locator returns the
NotFound result (`none`) instead of raising; individual candidate errors are
swallowed and the search moves on. -/
theorem claim_C6_theorem (D : List Nat → Option (List Nat)) (data : List Nat)
    (offset : Int) (dictSize uncompressedSize : Nat)
    (h : ∀ t ∈ lzmaCandidates offset, D (pySliceFrom data t) = none ∨
      D (pySliceFrom data t) = some []) :
    (extract_lzma_section D data offset dictSize uncompressedSize).1 = none := by
  rw [show (extract_lzma_section D data offset dictSize uncompressedSize).1 =
      locateFirst D data (lzmaCandidates offset) from
    tryCands_fst_eq_locateFirst D data (lzmaCandidates offset) _]
  exact locateFirst_none D data _ h

/-- Claim C6, witness: a decoder that always raises makes every candidate
fail and the locator returns `none`. -/
theorem claim_C6_witness :
    (∀ t ∈ lzmaCandidates 0,
      (fun _ : List Nat => (none : Option (List Nat))) (pySliceFrom [] t) = none ∨
      (fun _ : List Nat => (none : Option (List Nat))) (pySliceFrom [] t) = some [])
    ∧ (extract_lzma_section (fun _ => none) [] 0 0 0).1 = none :=
  ⟨by intro t _; exact Or.inl rfl,
    claim_C6_theorem (fun _ => none) [] 0 0 0 (by intro t _; exact Or.inl rfl)⟩

/-- Claim C7, counterexample: the claim says a node already existing at the
target path is always removed first so link creation does not fail
spuriously. When a directory occupies the target path — here created as the
parent of the earlier entry `a/b` — the removal attempt raises (Path.unlink
on a directory), the outer handler swallows it, and the directory survives:
no symlink and no fallback file is created even though symlinks are
supported, and the traversal still reports success. -/
theorem claim_C7_counterexample :
    (let r := extract_squashfs_contents true true
        [⟨"a/b", EntryKind.file [Block.ok [7]]⟩,
         ⟨"a", EntryKind.symlink (some "tgt")⟩] fw0;
      FS.find r.1 ["extracted_firmware", "squashfs_contents", "a"] = some Node.dir
      ∧ r.2 = true) := by
  decide

/-- Claim C7, amended: for a symlink entry whose target path is not occupied
by a directory, any node previously occupying the target path is removed
first so link creation succeeds, and when true symlink creation is
unavailable the reconciler writes a plain file whose content is exactly the
text `Symlink to: ` followed by the link target. A directory occupying the
target path is not removed: the removal raises, the outer handler catches
it, and the entry leaves the tree unchanged — neither a symlink nor a
fallback file is created. -/
theorem claim_C7_theorem (fs : FS) (target : List String) (t : String) :
    (FS.find fs (resolveComps [] target) ≠ some Node.dir →
      openWriteOkB (FS.erase fs (resolveComps [] target)) target = true →
      handle_symlink false fs target (some t) =
        FS.insert fs (resolveComps [] target)
          (Node.file (strBytes ("Symlink to: " ++ t)))
      ∧ handle_symlink true fs target (some t) =
        FS.insert fs (resolveComps [] target) (Node.link t))
    ∧ (existsB fs (resolveComps [] target) = true →
      FS.find fs (resolveComps [] target) = some Node.dir →
      ∀ symlinkOk, handle_symlink symlinkOk fs target (some t) = fs) := by
  constructor
  · intro h1 h2
    have hpar : isDirB (FS.erase fs (resolveComps [] target))
        (resolveComps [] target.dropLast) = true := by
      have := h2
      unfold openWriteOkB at this
      exact (Bool.and_eq_true _ _ |>.mp this).1
    have hexe : existsB (FS.erase fs (resolveComps [] target))
        (resolveComps [] target) = false :=
      existsB_erase_self fs (resolveComps [] target)
    by_cases hex : existsB fs (resolveComps [] target) = true
    · have hnd : isDirB fs (resolveComps [] target) = false := by
        unfold existsB at hex
        rcases hf : FS.find fs (resolveComps [] target) with _ | n
        · rw [hf] at hex; simp at hex
        · unfold isDirB
          rw [hf]
          have hne : (!(resolveComps [] target).isEmpty) = true := by
            rw [hf] at hex; exact (Bool.and_eq_true _ _ |>.mp hex).1
          have : n ≠ Node.dir := by
            intro hn; rw [hn] at hf; exact h1 hf
          simp [Bool.not_eq_true] at hne
          simp [hne, this]
      constructor
      · unfold handle_symlink handle_symlink_body
        simp only [hex, if_true, hnd, Bool.false_eq_true, if_false]
        unfold symlinkAttempt
        simp only [Bool.false_and, Bool.false_eq_true, if_false, h2, if_true]
        exact FS.insert_erase_self fs (resolveComps [] target) _
      · unfold handle_symlink handle_symlink_body
        simp only [hex, if_true, hnd, Bool.false_eq_true, if_false]
        unfold symlinkAttempt
        simp only [hexe, Bool.not_false, Bool.true_and, hpar, Bool.and_true, if_true]
        exact FS.insert_erase_self fs (resolveComps [] target) _
    · have hfind : FS.find fs (resolveComps [] target) = none := by
        unfold existsB at hex
        rcases hf : FS.find fs (resolveComps [] target) with _ | n
        · rfl
        · rw [hf] at hex
          by_cases hemp : (resolveComps [] target).isEmpty = true
          · exfalso
            have : isDirB (FS.erase fs (resolveComps [] target))
                (resolveComps [] target) = true := by
              unfold isDirB; rw [hemp]; rfl
            unfold openWriteOkB at h2
            have h2r := (Bool.and_eq_true _ _ |>.mp h2).2
            rw [this] at h2r
            simp at h2r
          · exfalso
            apply hex
            simp [Bool.not_eq_true] at hemp ⊢
            simp [hemp]
      have herase : FS.erase fs (resolveComps [] target) = fs :=
        FS.erase_of_find_none fs (resolveComps [] target) hfind
      rw [herase] at h2 hpar hexe
      have hexf : existsB fs (resolveComps [] target) = false := by
        simp [Bool.not_eq_true] at hex; exact hex
      constructor
      · unfold handle_symlink handle_symlink_body
        simp only [hexf, Bool.false_eq_true, if_false]
        unfold symlinkAttempt
        simp only [Bool.false_and, Bool.false_eq_true, if_false, h2, if_true]
      · unfold handle_symlink handle_symlink_body
        simp only [hexf, Bool.false_eq_true, if_false]
        unfold symlinkAttempt
        simp only [hexf, Bool.not_false, Bool.true_and, hpar, Bool.and_true, if_true]
  · intro hex hdir symlinkOk
    have hdb : isDirB fs (resolveComps [] target) = true := by
      simp [isDirB, hdir]
    unfold handle_symlink handle_symlink_body
    simp [hex, hdb]

/-- Claim C7, witness: a target path holding a file is replaced by the
fallback placeholder when symlinks are unsupported and by a true symlink
when they are supported, while a target path holding a directory is left
untouched. -/
theorem claim_C7_witness :
    (handle_symlink false fsw tgw (some "a/b.txt") =
      FS.insert fsw (resolveComps [] tgw)
        (Node.file (strBytes ("Symlink to: " ++ "a/b.txt")))
    ∧ handle_symlink true fsw tgw (some "a/b.txt") =
      FS.insert fsw (resolveComps [] tgw) (Node.link "a/b.txt"))
    ∧ handle_symlink true fsd ["extracted_firmware", "squashfs_contents", "d"]
        (some "x") = fsd :=
  ⟨(claim_C7_theorem fsw tgw "a/b.txt").1 (by decide) (by decide),
   (claim_C7_theorem fsd ["extracted_firmware", "squashfs_contents", "d"] "x").2
     (by decide) (by decide) true⟩

/-- Claim C8: processing a symlink entry never aborts the traversal — once
the ancestor-creation step succeeds, the symlink reconciler catches every
exception of its body (failed readlink, failed unlink, failed link creation,
failed fallback write) internally, so the entry always reports success to
the loop. -/
theorem claim_C8_theorem (symlinkOk : Bool) (fs : FS) (p : String)
    (lt : Option String)
    (h : (mkdirParents fs (extractDir ++ pySplitPath p).dropLast).2 = true) :
    (processEntry symlinkOk fs ⟨p, EntryKind.symlink lt⟩).2 = true := by
  unfold processEntry
  simp [h]

/-- Claim C8, witness: a symlink entry whose `readlink` raises still reports
success to the traversal. -/
theorem claim_C8_witness :
    (mkdirParents [] (extractDir ++ pySplitPath "l").dropLast).2 = true
    ∧ (processEntry false [] ⟨"l", EntryKind.symlink none⟩).2 = true :=
  ⟨by decide, claim_C8_theorem false [] "l" none (by decide)⟩

/-- Claim C9: the expected uncompressed size passed to the locator changes
only the log text, never the result: for any two values of that parameter
the located payload is identical. -/
theorem claim_C9_theorem (D : List Nat → Option (List Nat)) (data : List Nat)
    (offset : Int) (dictSize u1 u2 : Nat) :
    (extract_lzma_section D data offset dictSize u1).1 =
      (extract_lzma_section D data offset dictSize u2).1 := by
  unfold extract_lzma_section
  rw [tryCands_fst_eq_locateFirst, tryCands_fst_eq_locateFirst]

/-- Claim C10: whenever the firmware file is readable, `extract_firmware`
returns `True` no matter how the LZMA search, the container parse, or the
materialization fare — it always proceeds through SquashFS extraction and
materialization — while an unreadable input returns `False`. -/
theorem claim_C10_theorem (D : List Nat → Option (List Nat)) (data : List Nat)
    (symlinkOk openOk : Bool) (entries : List ImageEntry) (fs : FS) :
    (extract_firmware (some data) D symlinkOk openOk entries fs).2 = true
    ∧ (extract_firmware (some data) D symlinkOk openOk entries fs).1 =
        (extract_squashfs_contents symlinkOk openOk entries
          (saveSections D data fs)).1
    ∧ (extract_firmware none D symlinkOk openOk entries fs).2 = false :=
  ⟨rfl, rfl, rfl⟩
